import Mathlib

/-!
Verification of the data-aggregation core of the World Air Quality dashboard
(repository E3FI-S1-Projet-Multi).

The embedding models:
  * `src/main.py`: `iso2_to_iso3`, `get_all_countries_df`, `get_filtered_data`,
    `calculate_country_pollution`, the world-pollution merge and the choropleth
    z-bounds inside `create_map`, and the top-5 ranking inside `update_map`;
  * `src/src/utils/mapping_region.py`: `REGION_MAPPING`, `get_region`,
    `calculate_years_lost`.

DataFrames are modelled as `List` of row structures, measurement values as `ℚ`,
nullable columns as `Option`, and pandas NaN-propagating reductions (`min`,
`max` over a possibly-empty series) as `Option`-valued functions.  The external
pycountry catalog is a parameter `db : List PycCountry`.
-/

namespace AirQuality

/-- Python built-in `round(y)` on an exact rational: round half to even
(banker's rounding), which is what `round` does in Python 3. -/
def pyRoundInt (y : ℚ) : ℤ :=
  if y - ⌊y⌋ < 1/2 then ⌊y⌋
  else if 1/2 < y - ⌊y⌋ then ⌊y⌋ + 1
  else if ⌊y⌋ % 2 = 0 then ⌊y⌋ else ⌊y⌋ + 1

/-- Python `round(x, 2)`: round to 2 decimal places, half to even. -/
def pyRound2 (x : ℚ) : ℚ := (pyRoundInt (x * 100) : ℚ) / 100

/-- Function `calculate_years_lost` from `src/src/utils/mapping_region.py`
(AQLI dose-response model).  In the source `seuil` is an optional argument
defaulting to `5`; here it is passed explicitly.

    if pm25_concentration <= seuil: return 0
    exces = pm25_concentration - seuil
    annee_perdue = exces * 0.098
    return round(annee_perdue, 2)
-/
def calculate_years_lost (pm25_concentration : ℚ) (seuil : ℚ) : ℚ :=
  if pm25_concentration ≤ seuil then 0
  else pyRound2 ((pm25_concentration - seuil) * (98/1000))

lemma pyRoundInt_ge_floor (y : ℚ) : ⌊y⌋ ≤ pyRoundInt y := by
  unfold pyRoundInt; split_ifs <;> omega

lemma pyRoundInt_le_floor_add_one (y : ℚ) : pyRoundInt y ≤ ⌊y⌋ + 1 := by
  unfold pyRoundInt; split_ifs <;> omega

lemma pyRoundInt_mono {y₁ y₂ : ℚ} (h : y₁ ≤ y₂) : pyRoundInt y₁ ≤ pyRoundInt y₂ := by
  have hf : ⌊y₁⌋ ≤ ⌊y₂⌋ := Int.floor_mono h
  rcases eq_or_lt_of_le hf with heq | hlt
  · have heq' : ((⌊y₁⌋ : ℚ)) = ((⌊y₂⌋ : ℚ)) := by exact_mod_cast heq
    unfold pyRoundInt
    split_ifs <;> first | omega | linarith
  · have b₁ := pyRoundInt_le_floor_add_one y₁
    have b₂ := pyRoundInt_ge_floor y₂
    omega

lemma pyRoundInt_nonneg {y : ℚ} (h : 0 ≤ y) : 0 ≤ pyRoundInt y := by
  have : (0 : ℤ) ≤ ⌊y⌋ := Int.floor_nonneg.mpr h
  have := pyRoundInt_ge_floor y
  omega

lemma pyRound2_mono {x₁ x₂ : ℚ} (h : x₁ ≤ x₂) : pyRound2 x₁ ≤ pyRound2 x₂ := by
  unfold pyRound2
  have hm : pyRoundInt (x₁ * 100) ≤ pyRoundInt (x₂ * 100) :=
    pyRoundInt_mono (by linarith)
  have : ((pyRoundInt (x₁ * 100) : ℚ)) ≤ ((pyRoundInt (x₂ * 100) : ℚ)) := by
    exact_mod_cast hm
  linarith

lemma pyRound2_nonneg {x : ℚ} (h : 0 ≤ x) : 0 ≤ pyRound2 x := by
  unfold pyRound2
  have : (0 : ℤ) ≤ pyRoundInt (x * 100) := pyRoundInt_nonneg (by linarith)
  have : ((0 : ℚ)) ≤ ((pyRoundInt (x * 100) : ℚ)) := by exact_mod_cast this
  linarith

/-- C5: `calculate_years_lost` is monotone non-decreasing at the default
threshold 5, and returns 0 for every concentration at or below 5. -/
theorem years_lost_monotone_and_zero_below_threshold :
    (∀ c₁ c₂ : ℚ, c₁ < c₂ →
      calculate_years_lost c₁ 5 ≤ calculate_years_lost c₂ 5) ∧
    (∀ c : ℚ, c ≤ 5 → calculate_years_lost c 5 = 0) := by
  constructor
  · intro c₁ c₂ hlt
    unfold calculate_years_lost
    split_ifs with h₁ h₂ h₃
    · exact le_refl 0
    · exact pyRound2_nonneg (by nlinarith [not_le.mp h₂])
    · exact absurd (lt_of_lt_of_le hlt h₃).le h₁
    · exact pyRound2_mono (by nlinarith [not_le.mp h₁])
  · intro c hc
    unfold calculate_years_lost
    exact if_pos hc

/-- Witness for C5 at concrete inputs. -/
theorem years_lost_monotone_witness :
    calculate_years_lost 10 5 ≤ calculate_years_lost 20 5 ∧
    calculate_years_lost 3 5 = 0 :=
  ⟨years_lost_monotone_and_zero_below_threshold.1 10 20 (by norm_num),
   years_lost_monotone_and_zero_below_threshold.2 3 (by norm_num)⟩

lemma years_lost_15_eval : calculate_years_lost 15 5 = 49/50 := by
  unfold calculate_years_lost
  rw [if_neg (by norm_num)]
  have h : ((15 : ℚ) - 5) * (98/1000) * 100 = 98 := by norm_num
  unfold pyRound2 pyRoundInt
  rw [h]
  norm_num

/-- C4 counterexample: `calculate_years_lost 15` (threshold 5) equals
`round((15-5)*0.098, 2) = 0.98`, which is not `1.0` as the claim asserts. -/
theorem years_lost_at_15_ne_one :
    calculate_years_lost 15 5 = 49/50 ∧ (49/50 : ℚ) ≠ 1 :=
  ⟨years_lost_15_eval, by norm_num⟩

/-- C4 amended: `calculate_years_lost 15` (threshold 5) returns
`round((15-5)*0.098, 2)`, and that value equals 0.98. -/
theorem years_lost_at_15_eq_round :
    calculate_years_lost 15 5 = pyRound2 ((15 - 5) * (98/1000)) ∧
    calculate_years_lost 15 5 = 49/50 := by
  constructor
  · unfold calculate_years_lost
    rw [if_neg (by norm_num)]
  · exact years_lost_15_eval

/-- Table `REGION_MAPPING` from `src/src/utils/mapping_region.py`: the static
ISO-2 country-code → macro-region dictionary (association list; the source
dict has no duplicate keys). -/
def REGION_MAPPING : List (String × String) := [
  ("IN", "Asie du Sud"),
  ("PK", "Asie du Sud"),
  ("BD", "Asie du Sud"),
  ("NP", "Asie du Sud"),
  ("LK", "Asie du Sud"),
  ("AF", "Asie du Sud"),
  ("BT", "Asie du Sud"),
  ("MV", "Asie du Sud"),
  ("CN", "Asie de l\x27Est"),
  ("JP", "Asie de l\x27Est"),
  ("KR", "Asie de l\x27Est"),
  ("KP", "Asie de l\x27Est"),
  ("TW", "Asie de l\x27Est"),
  ("MN", "Asie de l\x27Est"),
  ("HK", "Asie de l\x27Est"),
  ("MO", "Asie de l\x27Est"),
  ("TH", "Asie du Sud-Est"),
  ("VN", "Asie du Sud-Est"),
  ("ID", "Asie du Sud-Est"),
  ("PH", "Asie du Sud-Est"),
  ("MY", "Asie du Sud-Est"),
  ("SG", "Asie du Sud-Est"),
  ("MM", "Asie du Sud-Est"),
  ("KH", "Asie du Sud-Est"),
  ("LA", "Asie du Sud-Est"),
  ("BN", "Asie du Sud-Est"),
  ("TL", "Asie du Sud-Est"),
  ("SA", "Moyen-Orient"),
  ("AE", "Moyen-Orient"),
  ("IR", "Moyen-Orient"),
  ("IQ", "Moyen-Orient"),
  ("IL", "Moyen-Orient"),
  ("JO", "Moyen-Orient"),
  ("LB", "Moyen-Orient"),
  ("SY", "Moyen-Orient"),
  ("YE", "Moyen-Orient"),
  ("OM", "Moyen-Orient"),
  ("KW", "Moyen-Orient"),
  ("QA", "Moyen-Orient"),
  ("BH", "Moyen-Orient"),
  ("PS", "Moyen-Orient"),
  ("TR", "Moyen-Orient"),
  ("FR", "Europe occidentale"),
  ("DE", "Europe occidentale"),
  ("GB", "Europe occidentale"),
  ("IT", "Europe occidentale"),
  ("ES", "Europe occidentale"),
  ("PT", "Europe occidentale"),
  ("NL", "Europe occidentale"),
  ("BE", "Europe occidentale"),
  ("CH", "Europe occidentale"),
  ("AT", "Europe occidentale"),
  ("IE", "Europe occidentale"),
  ("LU", "Europe occidentale"),
  ("MC", "Europe occidentale"),
  ("LI", "Europe occidentale"),
  ("AD", "Europe occidentale"),
  ("SE", "Europe du Nord"),
  ("NO", "Europe du Nord"),
  ("DK", "Europe du Nord"),
  ("FI", "Europe du Nord"),
  ("IS", "Europe du Nord"),
  ("EE", "Europe du Nord"),
  ("LV", "Europe du Nord"),
  ("LT", "Europe du Nord"),
  ("PL", "Europe de l\x27Est"),
  ("CZ", "Europe de l\x27Est"),
  ("SK", "Europe de l\x27Est"),
  ("HU", "Europe de l\x27Est"),
  ("RO", "Europe de l\x27Est"),
  ("BG", "Europe de l\x27Est"),
  ("UA", "Europe de l\x27Est"),
  ("BY", "Europe de l\x27Est"),
  ("MD", "Europe de l\x27Est"),
  ("RU", "Europe de l\x27Est"),
  ("GR", "Europe du Sud"),
  ("HR", "Europe du Sud"),
  ("SI", "Europe du Sud"),
  ("BA", "Europe du Sud"),
  ("RS", "Europe du Sud"),
  ("ME", "Europe du Sud"),
  ("MK", "Europe du Sud"),
  ("AL", "Europe du Sud"),
  ("XK", "Europe du Sud"),
  ("CY", "Europe du Sud"),
  ("MT", "Europe du Sud"),
  ("US", "Amérique du Nord"),
  ("CA", "Amérique du Nord"),
  ("MX", "Amérique du Nord"),
  ("GT", "Amérique centrale"),
  ("HN", "Amérique centrale"),
  ("SV", "Amérique centrale"),
  ("NI", "Amérique centrale"),
  ("CR", "Amérique centrale"),
  ("PA", "Amérique centrale"),
  ("BZ", "Amérique centrale"),
  ("CU", "Amérique centrale"),
  ("DO", "Amérique centrale"),
  ("HT", "Amérique centrale"),
  ("JM", "Amérique centrale"),
  ("TT", "Amérique centrale"),
  ("BB", "Amérique centrale"),
  ("BS", "Amérique centrale"),
  ("BR", "Amérique du Sud"),
  ("AR", "Amérique du Sud"),
  ("CL", "Amérique du Sud"),
  ("CO", "Amérique du Sud"),
  ("PE", "Amérique du Sud"),
  ("VE", "Amérique du Sud"),
  ("EC", "Amérique du Sud"),
  ("BO", "Amérique du Sud"),
  ("PY", "Amérique du Sud"),
  ("UY", "Amérique du Sud"),
  ("GY", "Amérique du Sud"),
  ("SR", "Amérique du Sud"),
  ("GF", "Amérique du Sud"),
  ("EG", "Afrique du Nord"),
  ("DZ", "Afrique du Nord"),
  ("MA", "Afrique du Nord"),
  ("TN", "Afrique du Nord"),
  ("LY", "Afrique du Nord"),
  ("SD", "Afrique du Nord"),
  ("NG", "Afrique subsaharienne"),
  ("GH", "Afrique subsaharienne"),
  ("CI", "Afrique subsaharienne"),
  ("SN", "Afrique subsaharienne"),
  ("ML", "Afrique subsaharienne"),
  ("BF", "Afrique subsaharienne"),
  ("NE", "Afrique subsaharienne"),
  ("GN", "Afrique subsaharienne"),
  ("SL", "Afrique subsaharienne"),
  ("LR", "Afrique subsaharienne"),
  ("TG", "Afrique subsaharienne"),
  ("BJ", "Afrique subsaharienne"),
  ("KE", "Afrique subsaharienne"),
  ("TZ", "Afrique subsaharienne"),
  ("UG", "Afrique subsaharienne"),
  ("ET", "Afrique subsaharienne"),
  ("SO", "Afrique subsaharienne"),
  ("RW", "Afrique subsaharienne"),
  ("BI", "Afrique subsaharienne"),
  ("DJ", "Afrique subsaharienne"),
  ("ER", "Afrique subsaharienne"),
  ("SS", "Afrique subsaharienne"),
  ("ZA", "Afrique subsaharienne"),
  ("ZW", "Afrique subsaharienne"),
  ("ZM", "Afrique subsaharienne"),
  ("MW", "Afrique subsaharienne"),
  ("MZ", "Afrique subsaharienne"),
  ("BW", "Afrique subsaharienne"),
  ("NA", "Afrique subsaharienne"),
  ("LS", "Afrique subsaharienne"),
  ("SZ", "Afrique subsaharienne"),
  ("AO", "Afrique subsaharienne"),
  ("CD", "Afrique subsaharienne"),
  ("CG", "Afrique subsaharienne"),
  ("CM", "Afrique subsaharienne"),
  ("CF", "Afrique subsaharienne"),
  ("TD", "Afrique subsaharienne"),
  ("GA", "Afrique subsaharienne"),
  ("GQ", "Afrique subsaharienne"),
  ("AU", "Océanie"),
  ("NZ", "Océanie"),
  ("PG", "Océanie"),
  ("FJ", "Océanie"),
  ("SB", "Océanie"),
  ("VU", "Océanie"),
  ("NC", "Océanie"),
  ("PF", "Océanie"),
  ("WS", "Océanie"),
  ("TO", "Océanie"),
  ("KI", "Océanie")
]

/-- Function `get_region` from `src/src/utils/mapping_region.py`:
`REGION_MAPPING.get(country_code, 'Autre')`. -/
def get_region (country_code : String) : String :=
  (REGION_MAPPING.lookup country_code).getD "Autre"

lemma lookup_mem {α β : Type} [BEq α] [LawfulBEq α] {l : List (α × β)} {k : α}
    {v : β} (h : l.lookup k = some v) : (k, v) ∈ l := by
  induction l with
  | nil => simp [List.lookup] at h
  | cons p t ih =>
    rcases p with ⟨a, b⟩
    rw [List.lookup] at h
    by_cases hk : k = a
    · subst hk
      simp at h
      subst h
      exact List.mem_cons_self _ _
    · have : (k == a) = false := beq_false_of_ne hk
      rw [this] at h
      exact List.mem_cons_of_mem _ (ih h)

lemma lookup_eq_none_of_not_mem_keys {α β : Type} [BEq α] [LawfulBEq α]
    {l : List (α × β)} {k : α} (h : k ∉ l.map Prod.fst) : l.lookup k = none := by
  induction l with
  | nil => rfl
  | cons p t ih =>
    rcases p with ⟨a, b⟩
    rw [List.map_cons] at h
    have h1 : k ≠ a := fun he => h (he ▸ List.mem_cons_self _ _)
    have h2 : k ∉ t.map Prod.fst := fun hm => h (List.mem_cons_of_mem _ hm)
    rw [List.lookup]
    have hb : (k == a) = false := beq_false_of_ne h1
    rw [hb]
    exact ih h2

/-- C6: `get_region` is total and deterministic: every input string is mapped
to exactly one label, that label comes from the mapping table or is the
catch-all "Autre", and inputs absent from the table map to "Autre". -/
theorem get_region_total_and_default (code : String) :
    (∃! label : String, get_region code = label) ∧
    ((code, get_region code) ∈ REGION_MAPPING ∨ get_region code = "Autre") ∧
    (code ∉ REGION_MAPPING.map Prod.fst → get_region code = "Autre") := by
  refine ⟨⟨get_region code, rfl, fun y hy => hy.symm⟩, ?_, ?_⟩
  · cases h : REGION_MAPPING.lookup code with
    | none => right; simp [get_region, h]
    | some v =>
      left
      have hm := lookup_mem h
      simpa [get_region, h] using hm
  · intro hk
    have h := lookup_eq_none_of_not_mem_keys hk
    simp [get_region, h]

/-- Witness for C6 at the concrete absent code "QQ". -/
theorem get_region_default_witness :
    ("QQ" ∉ REGION_MAPPING.map Prod.fst) ∧ get_region "QQ" = "Autre" :=
  ⟨by decide, (get_region_total_and_default "QQ").2.2 (by decide)⟩

/-- One row of the cleaned measurement dataset, as loaded by
`load_geojson_data` in `src/main.py` (with the derived columns `year`, `lat`,
`lon` already added).  Nullable columns are `Option`-valued;
`measurements_lastupdated` is a timestamp modelled as an integer. -/
structure Measurement where
  country : String
  country_name_en : Option String
  location : Option String
  measurements_parameter : String
  measurements_value : ℚ
  measurements_unit : Option String
  measurements_lastupdated : ℤ
  year : ℤ
  lat : ℚ
  lon : ℚ
deriving DecidableEq, Repr

/-- One entry of the external pycountry catalog (`pycountry.countries`). -/
structure PycCountry where
  alpha_2 : String
  alpha_3 : String
  name : String
deriving DecidableEq, Repr

/-- Function `iso2_to_iso3` from `src/main.py`, parameterized by the pycountry
catalog `db`:

    try: return pycountry.countries.get(alpha_2=iso2_code).alpha_3
    except: return None

`pycountry.countries.get(alpha_2=c)` returns the first catalog entry whose
`alpha_2` equals `c`, or `None`; accessing `.alpha_3` on `None` raises, and
the bare `except` turns that into the `None` return. -/
def iso2_to_iso3 (db : List PycCountry) (iso2_code : String) : Option String :=
  match db.find? (fun c => c.alpha_2 == iso2_code) with
  | some c => some c.alpha_3
  | none => none

/-- One row of the DataFrame built by `get_all_countries_df`. -/
structure AllCountryRow where
  country_iso3 : String
  country_name : String
deriving DecidableEq, Repr

/-- Function `get_all_countries_df` from `src/main.py`: one row per pycountry entry,
with columns `country_iso3 = alpha_3` and `country_name = name`, in catalog
order. -/
def get_all_countries_df (db : List PycCountry) : List AllCountryRow :=
  db.map (fun c => ⟨c.alpha_3, c.name⟩)

/-- Function `get_filtered_data` from `src/main.py`.  The pollutant filter is
`Option (List String)`; Python's `if pollutants_tuple:` is false both for
`None` and for the empty tuple, so no pollutant filtering happens in those
two cases, and otherwise rows are kept when `measurements_parameter` is in
the tuple (`isin`). -/
def get_filtered_data (base : List Measurement) (year : ℤ)
    (pollutants_tuple : Option (List String)) : List Measurement :=
  let data_filtered := base.filter (fun r => r.year == year)
  match pollutants_tuple with
  | none => data_filtered
  | some ps =>
    if ps.isEmpty then data_filtered
    else data_filtered.filter (fun r => ps.contains r.measurements_parameter)

/-- C2: the filtered view is invariant under permutations of the pollutant
tuple, and the empty tuple behaves exactly like `None` (no pollutant
filtering in both cases). -/
theorem filtered_perm_invariant_and_empty_eq_none
    (base : List Measurement) (year : ℤ) :
    (∀ ps ps' : List String, ps.Perm ps' →
      get_filtered_data base year (some ps) =
        get_filtered_data base year (some ps')) ∧
    get_filtered_data base year (some []) = get_filtered_data base year none := by
  constructor
  · intro ps ps' hperm
    by_cases hn : ps = []
    · subst hn
      have h' : ps' = [] := hperm.symm.eq_nil
      subst h'
      rfl
    · have hn' : ps' ≠ [] := fun he => hn ((he ▸ hperm).eq_nil)
      have hE : ps.isEmpty = false := by
        cases ps with
        | nil => exact absurd rfl hn
        | cons a t => rfl
      have hE' : ps'.isEmpty = false := by
        cases ps' with
        | nil => exact absurd rfl hn'
        | cons a t => rfl
      simp only [get_filtered_data, hE, hE', Bool.false_eq_true, if_false]
      apply List.filter_congr
      intro r _
      have hm : (r.measurements_parameter ∈ ps) ↔
          (r.measurements_parameter ∈ ps') := hperm.mem_iff
      have : (ps.contains r.measurements_parameter = true) ↔
          (ps'.contains r.measurements_parameter = true) := by
        rw [List.elem_iff, List.elem_iff]
        exact hm
      exact Bool.eq_iff_iff.mpr this
  · rfl

/-- C9: `iso2_to_iso3` is total (the bare `except` means it never raises):
for every catalog and every input string it either returns the alpha-3 code
of a catalog entry whose alpha-2 code is the input, or returns `None`. -/
theorem iso2_to_iso3_resolves_or_none (db : List PycCountry) (code : String) :
    (∃ c ∈ db, c.alpha_2 = code ∧ iso2_to_iso3 db code = some c.alpha_3) ∨
    iso2_to_iso3 db code = none := by
  unfold iso2_to_iso3
  cases h : db.find? (fun c => c.alpha_2 == code) with
  | none => right; rfl
  | some c =>
    left
    refine ⟨c, List.mem_of_find?_eq_some h, ?_, rfl⟩
    have hc := List.find?_some h
    simpa using hc

/-- Code-point lexicographic order on character lists: the order in which
pandas sorts string group keys. -/
def charListLe : List Char → List Char → Bool
  | [], _ => true
  | _ :: _, [] => false
  | x :: xs, y :: ys =>
    if x.val < y.val then true
    else if y.val < x.val then false
    else charListLe xs ys

/-- Code-point lexicographic order on strings. -/
def strLe (a b : String) : Bool := charListLe a.data b.data

/-- Relation form of `strLe`, decidable, for `List.insertionSort`. -/
def strLeRel (a b : String) : Prop := strLe a b = true

instance : DecidableRel strLeRel := fun a b => by
  unfold strLeRel
  infer_instance

/-- Arithmetic mean of a list of values (pandas `Series.mean`). -/
def listMean (vs : List ℚ) : ℚ := vs.sum / vs.length

/-- The step `data.groupby('country')['measurements_value'].mean().reset_index()` from
`calculate_country_pollution` in `src/main.py`: one row per distinct country
code, keys in ascending order (pandas `groupby` sorts group keys), value the
arithmetic mean of `measurements_value` over the group. -/
def pollution_groupby (data : List Measurement) : List (String × ℚ) :=
  (List.insertionSort strLeRel (data.map (fun r => r.country)).dedup).map
    (fun c =>
      (c, listMean ((data.filter (fun r => r.country == c)).map
        (fun r => r.measurements_value))))

/-- One row of the DataFrame returned by `calculate_country_pollution`
(after the `dropna` step, so `country_iso3` is a plain string). -/
structure PollutionRow where
  country : String
  avg_pollution : ℚ
  country_iso3 : String
deriving DecidableEq, Repr

/-- Function `calculate_country_pollution` from `src/main.py`: group the filtered data
by country with mean value, add `country_iso3 = iso2_to_iso3(country)`, and
drop the rows whose conversion returned `None`
(`dropna(subset=['country_iso3'])`). -/
def calculate_country_pollution (db : List PycCountry) (base : List Measurement)
    (year : ℤ) (pollutants_tuple : Option (List String)) : List PollutionRow :=
  (pollution_groupby (get_filtered_data base year pollutants_tuple)).filterMap
    (fun p =>
      match iso2_to_iso3 db p.1 with
      | some i3 => some ⟨p.1, p.2, i3⟩
      | none => none)

/-- C3: every row of `calculate_country_pollution` carries a `country_iso3`
successfully resolved from its 2-letter code by `iso2_to_iso3`; rows whose
code fails to resolve are dropped, never returned. -/
theorem country_pollution_rows_resolved (db : List PycCountry)
    (base : List Measurement) (year : ℤ) (pt : Option (List String)) :
    ∀ r ∈ calculate_country_pollution db base year pt,
      iso2_to_iso3 db r.country = some r.country_iso3 := by
  intro r hr
  unfold calculate_country_pollution at hr
  obtain ⟨p, _, hf⟩ := List.mem_filterMap.mp hr
  cases h : iso2_to_iso3 db p.1 with
  | none => rw [h] at hf; simp at hf
  | some i3 =>
    rw [h] at hf
    simp only [Option.some.injEq] at hf
    subst hf
    exact h

/-- A small concrete pycountry catalog for witnesses and the spec scenario. -/
def pycDemo : List PycCountry :=
  [⟨"DE", "DEU", "Germany"⟩, ⟨"FR", "FRA", "France"⟩,
   ⟨"US", "USA", "United States"⟩]

/-- The spec's scenario dataset: three PM2.5 records for France in 2020 with
values 10, 20, 30, and one for the United States with value 5. -/
def demoBase : List Measurement :=
  [⟨"FR", some "France", some "Paris", "PM2.5", 10, some "µg/m³", 100, 2020, 48, 2⟩,
   ⟨"FR", some "France", some "Lyon", "PM2.5", 20, some "µg/m³", 101, 2020, 45, 4⟩,
   ⟨"FR", some "France", some "Lille", "PM2.5", 30, some "µg/m³", 102, 2020, 50, 3⟩,
   ⟨"US", some "United States", some "New York", "PM2.5", 5, some "µg/m³", 103, 2020, 40, -74⟩]

lemma ccp_demo :
    calculate_country_pollution pycDemo demoBase 2020 (some ["PM2.5"]) =
      [⟨"FR", 20, "FRA"⟩, ⟨"US", 5, "USA"⟩] := by
  have h2 : pollution_groupby (get_filtered_data demoBase 2020 (some ["PM2.5"])) =
      [("FR", listMean [10, 20, 30]), ("US", listMean [5])] := rfl
  have h3 : listMean [10, 20, 30] = 20 := by norm_num [listMean]
  have h4 : listMean [5] = 5 := by norm_num [listMean]
  unfold calculate_country_pollution
  rw [h2, h3, h4]
  rfl

/-- Witness for C2 at a concrete permuted pollutant pair. -/
theorem filtered_perm_witness :
    (["NO2", "PM2.5"] : List String).Perm ["PM2.5", "NO2"] ∧
    get_filtered_data demoBase 2020 (some ["NO2", "PM2.5"]) =
      get_filtered_data demoBase 2020 (some ["PM2.5", "NO2"]) :=
  ⟨List.Perm.swap "PM2.5" "NO2" [],
   (filtered_perm_invariant_and_empty_eq_none demoBase 2020).1 _ _
     (List.Perm.swap "PM2.5" "NO2" [])⟩

/-- Witness for C3 at a concrete aggregated row. -/
theorem country_pollution_resolved_witness :
    (⟨"FR", 20, "FRA"⟩ : PollutionRow) ∈
      calculate_country_pollution pycDemo demoBase 2020 (some ["PM2.5"]) ∧
    iso2_to_iso3 pycDemo "FR" = some "FRA" :=
  ⟨by rw [ccp_demo]; exact List.mem_cons_self _ _,
   country_pollution_rows_resolved pycDemo demoBase 2020 (some ["PM2.5"])
     ⟨"FR", 20, "FRA"⟩ (by rw [ccp_demo]; exact List.mem_cons_self _ _)⟩

/-- The contribution of one reference-table row to the left join
`all_countries_df.merge(pollution_by_country[['country_iso3', 'avg_pollution']],
on='country_iso3', how='left')` in `create_map`: all matching right rows, or a
single row with a missing `avg_pollution` when there is no match. -/
def mergeRow (right : List PollutionRow) (l : AllCountryRow) :
    List (String × String × Option ℚ) :=
  let ms := right.filter (fun r => r.country_iso3 == l.country_iso3)
  if ms.isEmpty then [(l.country_iso3, l.country_name, none)]
  else ms.map (fun r => (l.country_iso3, l.country_name, some r.avg_pollution))

/-- pandas left join on `country_iso3`, one block per left row in order. -/
def merge_left (left : List AllCountryRow) (right : List PollutionRow) :
    List (String × String × Option ℚ) :=
  left.flatMap (mergeRow right)

/-- One row of the final world-pollution table rendered by the choropleth. -/
structure WorldRow where
  country_iso3 : String
  country_name : String
  avg_pollution : ℚ
deriving DecidableEq, Repr

/-- The step `world_pollution['avg_pollution'] = world_pollution['avg_pollution'].fillna(0)`
in `create_map`. -/
def fillna_zero (rows : List (String × String × Option ℚ)) : List WorldRow :=
  rows.map (fun t => ⟨t.1, t.2.1, t.2.2.getD 0⟩)

/-- The merged world-pollution table computed inside `create_map`. -/
def world_pollution (db : List PycCountry) (base : List Measurement)
    (year : ℤ) (pt : Option (List String)) : List WorldRow :=
  fillna_zero (merge_left (get_all_countries_df db)
    (calculate_country_pollution db base year pt))

/-- pandas `Series.min()`: `NaN` (here `none`) on an empty series. -/
def seriesMin : List ℚ → Option ℚ
  | [] => none
  | x :: xs => some (xs.foldl min x)

/-- pandas `Series.max()`: `NaN` (here `none`) on an empty series. -/
def seriesMax : List ℚ → Option ℚ
  | [] => none
  | x :: xs => some (xs.foldl max x)

/-- The bound `zmin = pollution_by_country["avg_pollution"].min()` in `create_map`:
computed from the pre-merge aggregate, not from the merged table. -/
def create_map_zmin (db : List PycCountry) (base : List Measurement)
    (year : ℤ) (pt : Option (List String)) : Option ℚ :=
  seriesMin ((calculate_country_pollution db base year pt).map
    PollutionRow.avg_pollution)

/-- The bound `zmax = pollution_by_country["avg_pollution"].max()` in `create_map`. -/
def create_map_zmax (db : List PycCountry) (base : List Measurement)
    (year : ℤ) (pt : Option (List String)) : Option ℚ :=
  seriesMax ((calculate_country_pollution db base year pt).map
    PollutionRow.avg_pollution)

lemma filter_key_eq_nil {right : List PollutionRow} {k : String}
    (h : k ∉ right.map PollutionRow.country_iso3) :
    right.filter (fun r => r.country_iso3 == k) = [] := by
  induction right with
  | nil => rfl
  | cons a t ih =>
    rw [List.map_cons] at h
    have h1 : a.country_iso3 ≠ k := fun he => h (he ▸ List.mem_cons_self _ _)
    have h2 : k ∉ t.map PollutionRow.country_iso3 :=
      fun hm => h (List.mem_cons_of_mem _ hm)
    rw [List.filter_cons, if_neg (by simp [h1]), ih h2]

lemma filter_key_singleton {right : List PollutionRow}
    (hnd : (right.map PollutionRow.country_iso3).Nodup) (k : String) :
    right.filter (fun r => r.country_iso3 == k) = [] ∨
    ∃ r : PollutionRow, r ∈ right ∧ r.country_iso3 = k ∧
      right.filter (fun r => r.country_iso3 == k) = [r] := by
  induction right with
  | nil => left; rfl
  | cons a t ih =>
    rw [List.map_cons, List.nodup_cons] at hnd
    obtain ⟨hna, hnd'⟩ := hnd
    by_cases hk : a.country_iso3 = k
    · right
      refine ⟨a, List.mem_cons_self _ _, hk, ?_⟩
      rw [List.filter_cons, if_pos (by simp [hk])]
      rw [filter_key_eq_nil (hk ▸ hna)]
    · rw [List.filter_cons, if_neg (by simp [hk])]
      rcases ih hnd' with h | ⟨r, hr, hrk, he⟩
      · left; exact h
      · right; exact ⟨r, List.mem_cons_of_mem _ hr, hrk, he⟩

lemma mergeRow_singleton {right : List PollutionRow}
    (hnd : (right.map PollutionRow.country_iso3).Nodup) (l : AllCountryRow) :
    ∃ v : Option ℚ, mergeRow right l = [(l.country_iso3, l.country_name, v)] := by
  rcases filter_key_singleton hnd l.country_iso3 with h | ⟨r, _, _, he⟩
  · exact ⟨none, by simp [mergeRow, h]⟩
  · exact ⟨some r.avg_pollution, by simp [mergeRow, he]⟩

lemma merge_left_map_fst (left : List AllCountryRow) {right : List PollutionRow}
    (hnd : (right.map PollutionRow.country_iso3).Nodup) :
    (merge_left left right).map (fun t => t.1) =
      left.map AllCountryRow.country_iso3 := by
  induction left with
  | nil => rfl
  | cons l ls ih =>
    obtain ⟨v, hv⟩ := mergeRow_singleton hnd l
    simp only [merge_left, List.flatMap_cons, List.map_append, hv]
    simp only [merge_left] at ih
    rw [ih]
    rfl

lemma merge_left_none_of_not_mem {left : List AllCountryRow}
    {right : List PollutionRow} {t : String × String × Option ℚ}
    (ht : t ∈ merge_left left right)
    (hnot : t.1 ∉ right.map PollutionRow.country_iso3) : t.2.2 = none := by
  obtain ⟨l, _, hm⟩ := List.mem_flatMap.mp ht
  unfold mergeRow at hm
  by_cases hE : (right.filter (fun r => r.country_iso3 == l.country_iso3)).isEmpty
  · rw [if_pos hE] at hm
    rcases List.mem_singleton.mp hm with rfl
    rfl
  · rw [if_neg hE] at hm
    obtain ⟨r, hrf, hre⟩ := List.mem_map.mp hm
    have hr1 : r ∈ right := (List.mem_filter.mp hrf).1
    have hr2 : r.country_iso3 = l.country_iso3 := by
      have := (List.mem_filter.mp hrf).2
      simpa using this
    exfalso
    apply hnot
    rw [← hre]
    exact hr2 ▸ List.mem_map_of_mem PollutionRow.country_iso3 hr1

lemma iso2_to_iso3_inj {db : List PycCountry}
    (hnd : (db.map PycCountry.alpha_3).Nodup) :
    ∀ a a' b, b ∈ iso2_to_iso3 db a → b ∈ iso2_to_iso3 db a' → a = a' := by
  intro a a' b hb hb'
  unfold iso2_to_iso3 at hb hb'
  cases h : db.find? (fun c => c.alpha_2 == a) with
  | none => rw [h] at hb; simp at hb
  | some c =>
    cases h' : db.find? (fun c => c.alpha_2 == a') with
    | none => rw [h'] at hb'; simp at hb'
    | some c' =>
      rw [h] at hb; rw [h'] at hb'
      simp only [Option.mem_def, Option.some.injEq] at hb hb'
      have hc : c ∈ db := List.mem_of_find?_eq_some h
      have hc' : c' ∈ db := List.mem_of_find?_eq_some h'
      have ha : c.alpha_2 = a := by simpa using List.find?_some h
      have ha' : c'.alpha_2 = a' := by simpa using List.find?_some h'
      have hcc : c = c' :=
        List.inj_on_of_nodup_map hnd hc hc' (by rw [hb, hb'])
      rw [← ha, ← ha', hcc]

lemma ccp_keys_nodup (db : List PycCountry) (base : List Measurement)
    (year : ℤ) (pt : Option (List String))
    (hnd : (db.map PycCountry.alpha_3).Nodup) :
    ((calculate_country_pollution db base year pt).map
      PollutionRow.country_iso3).Nodup := by
  have hmap : (calculate_country_pollution db base year pt).map
      PollutionRow.country_iso3 =
      ((pollution_groupby (get_filtered_data base year pt)).map Prod.fst).filterMap
        (iso2_to_iso3 db) := by
    rw [List.filterMap_map]
    unfold calculate_country_pollution
    rw [List.map_filterMap]
    apply List.filterMap_congr
    intro p _
    cases h : iso2_to_iso3 db p.1 with
    | none => simp [Function.comp, h]
    | some i3 => simp [Function.comp, h]
  rw [hmap]
  have hkeys : ((pollution_groupby (get_filtered_data base year pt)).map
      Prod.fst).Nodup := by
    unfold pollution_groupby
    rw [List.map_map]
    have : (Prod.fst ∘ fun c => (c, listMean ((get_filtered_data base year pt|>.filter
        (fun r => r.country == c)).map (fun r => r.measurements_value)))) =
        (id : String → String) := by
      funext c
      rfl
    rw [this, List.map_id]
    exact ((List.perm_insertionSort strLeRel _).symm).nodup (List.nodup_dedup _)
  exact List.Nodup.filterMap (iso2_to_iso3_inj hnd) hkeys

/-- C1: the merged world-pollution table has exactly one row per reference
country: same cardinality as `get_all_countries_df`, unique `country_iso3`
values all drawn from the reference table, and every reference country with
no aggregate row gets `avg_pollution = 0`. -/
theorem world_pollution_merge_complete (db : List PycCountry)
    (base : List Measurement) (year : ℤ) (pt : Option (List String))
    (hnd : (db.map PycCountry.alpha_3).Nodup) :
    (world_pollution db base year pt).length =
      (get_all_countries_df db).length ∧
    ((world_pollution db base year pt).map WorldRow.country_iso3).Nodup ∧
    (∀ w ∈ world_pollution db base year pt,
      w.country_iso3 ∈ (get_all_countries_df db).map AllCountryRow.country_iso3) ∧
    (∀ w ∈ world_pollution db base year pt,
      w.country_iso3 ∉ (calculate_country_pollution db base year pt).map
        PollutionRow.country_iso3 →
      w.avg_pollution = 0) := by
  have hrnd := ccp_keys_nodup db base year pt hnd
  have hfst := merge_left_map_fst (get_all_countries_df db) hrnd
  have hworld : (world_pollution db base year pt).map WorldRow.country_iso3 =
      (get_all_countries_df db).map AllCountryRow.country_iso3 := by
    unfold world_pollution fillna_zero
    rw [List.map_map]
    exact hfst
  refine ⟨?_, ?_, ?_, ?_⟩
  · have := congrArg List.length hworld
    simpa using this
  · rw [hworld]
    have : (get_all_countries_df db).map AllCountryRow.country_iso3 =
        db.map PycCountry.alpha_3 := by
      unfold get_all_countries_df
      rw [List.map_map]
      rfl
    rw [this]
    exact hnd
  · intro w hw
    rw [← hworld]
    exact List.mem_map_of_mem WorldRow.country_iso3 hw
  · intro w hw hnot
    unfold world_pollution fillna_zero at hw
    obtain ⟨t, ht, hte⟩ := List.mem_map.mp hw
    have ht1 : t.1 = w.country_iso3 := by rw [← hte]
    have hz : t.2.2 = none :=
      merge_left_none_of_not_mem ht (ht1 ▸ hnot)
    rw [← hte]
    simp [hz]

/-- Witness for C1 on the concrete demo catalog and dataset. -/
theorem world_pollution_merge_witness :
    ((pycDemo.map PycCountry.alpha_3).Nodup) ∧
    (world_pollution pycDemo demoBase 2020 (some ["PM2.5"])).length =
      (get_all_countries_df pycDemo).length ∧
    ((world_pollution pycDemo demoBase 2020 (some ["PM2.5"])).map
      WorldRow.country_iso3).Nodup :=
  ⟨by decide,
   (world_pollution_merge_complete pycDemo demoBase 2020 (some ["PM2.5"])
     (by decide)).1,
   (world_pollution_merge_complete pycDemo demoBase 2020 (some ["PM2.5"])
     (by decide)).2.1⟩

lemma world_demo_eval :
    world_pollution pycDemo demoBase 2020 (some ["PM2.5"]) =
      [⟨"DEU", "Germany", 0⟩, ⟨"FRA", "France", 20⟩,
       ⟨"USA", "United States", 5⟩] := by
  unfold world_pollution
  rw [ccp_demo]
  rfl

/-- C8: on the spec's scenario (France PM2.5 values 10, 20, 30 and United
States value 5 in 2020) the choropleth bounds are taken from the pre-merge
aggregate: `zmin = 5`, `zmax = 20`, while the merged world table (whose
zero-fill rows would collapse the scale) has minimum 0, different from
`zmin`. -/
theorem zbounds_premerge_scenario :
    create_map_zmin pycDemo demoBase 2020 (some ["PM2.5"]) = some 5 ∧
    create_map_zmax pycDemo demoBase 2020 (some ["PM2.5"]) = some 20 ∧
    seriesMin ((world_pollution pycDemo demoBase 2020 (some ["PM2.5"])).map
      WorldRow.avg_pollution) = some 0 ∧
    create_map_zmin pycDemo demoBase 2020 (some ["PM2.5"]) ≠
      seriesMin ((world_pollution pycDemo demoBase 2020 (some ["PM2.5"])).map
        WorldRow.avg_pollution) := by
  have h1 : create_map_zmin pycDemo demoBase 2020 (some ["PM2.5"]) = some 5 := by
    unfold create_map_zmin
    rw [ccp_demo]
    norm_num [seriesMin, min_def]
  have h2 : create_map_zmax pycDemo demoBase 2020 (some ["PM2.5"]) = some 20 := by
    unfold create_map_zmax
    rw [ccp_demo]
    norm_num [seriesMax, max_def]
  have h3 : seriesMin ((world_pollution pycDemo demoBase 2020
      (some ["PM2.5"])).map WorldRow.avg_pollution) = some 0 := by
    rw [world_demo_eval]
    norm_num [seriesMin, min_def]
  refine ⟨h1, h2, h3, ?_⟩
  rw [h1, h3]
  norm_num

/-- pandas `Series.max()` over timestamps: `NaN` (`none`) on an empty series. -/
def seriesMaxInt : List ℤ → Option ℤ
  | [] => none
  | x :: xs => some (xs.foldl max x)

/-- Lexicographic order on `(country, country_name_en)` pairs: the order in
which pandas sorts the two-level group keys. -/
def pairLe (a b : String × String) : Bool :=
  if a.1 = b.1 then strLe a.2 b.2 else strLe a.1 b.1

/-- Relation form of `pairLe`, decidable for `List.insertionSort`. -/
def pairLeRel (a b : String × String) : Prop := pairLe a b = true

instance : DecidableRel pairLeRel := fun a b => by
  unfold pairLeRel
  infer_instance

/-- One row of the top-countries ranking table built in `update_map`. -/
structure TopRow where
  country : String
  country_name_en : String
  measurements_value : ℚ
  measurements_unit : Option String
  measurements_lastupdated : Option ℤ
deriving DecidableEq, Repr

/-- The rows that take part in
`data_filtered.groupby(['country', 'country_name_en'])` in `update_map`:
pandas silently drops every row whose group key contains a missing value
(`dropna=True` is the groupby default), so rows with `country_name_en = NaN`
are excluded before grouping. -/
def ranking_rows (data : List Measurement) : List (Measurement × String) :=
  data.filterMap (fun r => r.country_name_en.map (fun n => (r, n)))

/-- The distinct `(country, country_name_en)` group keys, in the ascending
order pandas gives them. -/
def ranking_keys (data : List Measurement) : List (String × String) :=
  List.insertionSort pairLeRel
    ((ranking_rows data).map (fun p => (p.1.country, p.2))).dedup

/-- The step `groupby(['country', 'country_name_en']).agg({'measurements_value':
'mean', 'measurements_unit': 'first', 'measurements_lastupdated':
'max'}).reset_index()` from `update_map` (pandas `'first'` takes the first
non-null value of the group). -/
def ranking_groupby (data : List Measurement) : List TopRow :=
  (ranking_keys data).map (fun k =>
    let g := (ranking_rows data).filter
      (fun p => p.1.country == k.1 && p.2 == k.2)
    ⟨k.1, k.2,
     listMean (g.map (fun p => p.1.measurements_value)),
     (g.filterMap (fun p => p.1.measurements_unit)).head?,
     seriesMaxInt (g.map (fun p => p.1.measurements_lastupdated))⟩)

/-- Descending order on mean measurement value
(`sort_values('measurements_value', ascending=False)`). -/
def valueDescRel (a b : TopRow) : Prop :=
  b.measurements_value ≤ a.measurements_value

instance : DecidableRel valueDescRel := fun a b => by
  unfold valueDescRel
  infer_instance

instance : IsTotal TopRow valueDescRel :=
  ⟨fun a b => le_total b.measurements_value a.measurements_value⟩

instance : IsTrans TopRow valueDescRel :=
  ⟨fun _ _ _ hab hbc => le_trans hbc hab⟩

/-- The top-5 ranking computed in `update_map`:
`top_countries.sort_values('measurements_value', ascending=False).head(5)`. -/
def top_countries (base : List Measurement) (year : ℤ)
    (pt : Option (List String)) : List TopRow :=
  (List.insertionSort valueDescRel
    (ranking_groupby (get_filtered_data base year pt))).take 5

/-- C7: the top-countries ranking has at most 5 rows and is sorted descending
by mean measurement value: each later row's value never exceeds an earlier
row's value. -/
theorem top_countries_bound_and_sorted (base : List Measurement) (year : ℤ)
    (pt : Option (List String)) :
    (top_countries base year pt).length ≤ 5 ∧
    (top_countries base year pt).Sorted valueDescRel := by
  constructor
  · unfold top_countries
    rw [List.length_take]
    exact min_le_left _ _
  · unfold top_countries
    exact (List.sorted_insertionSort valueDescRel _).sublist
      (List.take_sublist _ _)

lemma mem_of_mem_filtered {base : List Measurement} {year : ℤ}
    {pt : Option (List String)} {r : Measurement}
    (h : r ∈ get_filtered_data base year pt) : r ∈ base := by
  cases pt with
  | none => exact (List.mem_filter.mp h).1
  | some ps =>
    simp only [get_filtered_data] at h
    by_cases hE : ps.isEmpty
    · rw [if_pos hE] at h
      exact (List.mem_filter.mp h).1
    · rw [if_neg hE] at h
      exact (List.mem_filter.mp (List.mem_filter.mp h).1).1

/-- C10: because pandas groupby drops rows whose group key contains a missing
value, a country all of whose records lack `country_name_en` can never appear
in the top-5 ranking, whatever its values. -/
theorem missing_name_country_never_ranked (base : List Measurement)
    (year : ℤ) (pt : Option (List String)) (c : String)
    (hall : ∀ r ∈ base, r.country = c → r.country_name_en = none) :
    c ∉ (top_countries base year pt).map TopRow.country := by
  intro hc
  obtain ⟨t, ht, hte⟩ := List.mem_map.mp hc
  have ht1 : t ∈ List.insertionSort valueDescRel
      (ranking_groupby (get_filtered_data base year pt)) :=
    (List.take_sublist _ _).mem ht
  have ht2 : t ∈ ranking_groupby (get_filtered_data base year pt) :=
    (List.mem_insertionSort _).mp ht1
  unfold ranking_groupby at ht2
  obtain ⟨k, hk, hkt⟩ := List.mem_map.mp ht2
  have hk1 : k ∈ ((ranking_rows (get_filtered_data base year pt)).map
      (fun p => (p.1.country, p.2))).dedup :=
    (List.mem_insertionSort _).mp hk
  obtain ⟨p, hp, hpk⟩ := List.mem_map.mp (List.mem_dedup.mp hk1)
  obtain ⟨r, hr, hrp⟩ := List.mem_filterMap.mp hp
  have hcountry : t.country = k.1 := by rw [← hkt]
  cases hn : r.country_name_en with
  | none => rw [hn] at hrp; simp at hrp
  | some n =>
    rw [hn] at hrp
    simp only [Option.map_some', Option.some.injEq] at hrp
    have hpr : p.1 = r := by rw [← hrp]
    have hrc : r.country = c := by
      rw [← hte, hcountry, ← hpk, hpr]
    have := hall r (mem_of_mem_filtered hr) hrc
    rw [hn] at this
    exact Option.some_ne_none n this

/-- A dataset whose only records for country "AA" all lack
`country_name_en`, even though "AA" has the highest values. -/
def demoBaseNoName : List Measurement :=
  [⟨"AA", none, some "Nowhere", "PM2.5", 1000, some "µg/m³", 100, 2020, 10, 10⟩,
   ⟨"FR", some "France", some "Paris", "PM2.5", 10, some "µg/m³", 101, 2020, 48, 2⟩]

/-- Witness for C10 on the concrete dataset `demoBaseNoName`. -/
theorem missing_name_never_ranked_witness :
    (∀ r ∈ demoBaseNoName, r.country = "AA" → r.country_name_en = none) ∧
    "AA" ∉ (top_countries demoBaseNoName 2020 none).map TopRow.country :=
  ⟨by decide,
   missing_name_country_never_ranked demoBaseNoName 2020 none "AA" (by decide)⟩

end AirQuality
